import Mathlib

/-!
Verification of the task-management backend (service + authorization layer).

The data model and operations are embedded shallowly: Python functions
become Lean functions, fallible constructors return `Except`, machine
integers become `Int`/`Nat`.  `project/config.py` is embedded from its
source; the remaining modules (`project/utils/pagination.py`,
`project/security.py`, `project/services/*`, `project/db/models/*`) are
absent from the repository snapshot and are modelled from the spec, as
marked on each definition.
-/

namespace Project

/-- Error taxonomy from `project/exceptions.py`: a base domain error with
specializations NotFound, Validation, Authentication, Authorization.
Modelled from the spec: the module itself is absent from the snapshot;
each constructor carries the structured context the spec describes. -/
inductive DomainError where
  | notFound (entityType : String) (identifier : Option String)
  | validation (message : String) (fld : Option String)
  | authenticationFailure (message : String)
  | authorizationFailure (requiredRole : String)
deriving DecidableEq, Repr

/-- The field reported by a Validation error, if the result is one. -/
def errField {α : Type} : Except DomainError α → Option String
  | .error (.validation _ f) => f
  | _ => none

/-- True iff the result is a Validation error. -/
def isValidationErr {α : Type} : Except DomainError α → Bool
  | .error (.validation _ _) => true
  | _ => false

/-- True iff the result is a NotFound error. -/
def isNotFoundErr {α : Type} : Except DomainError α → Bool
  | .error (.notFound _ _) => true
  | _ => false

/-! ## Settings (`src/project/config.py`, real source) -/

/-- The `DB_TYPE` literal from `config.py`: `Literal["sqlite", "postgres"]`. -/
inductive DbType where
  | sqlite
  | postgres
deriving DecidableEq, Repr

/-- The `Settings` model of `src/project/config.py` with its fields. -/
structure Settings where
  DEBUG : Bool
  SECRET_KEY : String
  ALGORITHM : String
  ACCESS_TOKEN_EXPIRE_MINUTES : Int
  DB_TYPE : DbType
  DB_URL : String
  SQLALCHEMY_ECHO : Bool
deriving DecidableEq, Repr

/-- Construction of `Settings` as pydantic performs it in
`src/project/config.py`: the `validate_db_url` validator rejects an empty
`DB_URL`, and `validate_token_expiry` rejects
`ACCESS_TOKEN_EXPIRE_MINUTES <= 0`.  No validator inspects `SECRET_KEY`.
The remaining fields take their declared defaults; the integer branch of
`validate_token_expiry` is modelled (the string-coercion branch only
converts the representation). -/
def Settings.make (secretKey : String) (accessTokenExpireMinutes : Int)
    (dbUrl : String) : Except String Settings :=
  if accessTokenExpireMinutes ≤ 0 then
    .error "ACCESS_TOKEN_EXPIRE_MINUTES must be positive"
  else if dbUrl = "" then
    .error "DB_URL cannot be empty"
  else
    .ok
      { DEBUG := false, SECRET_KEY := secretKey, ALGORITHM := "HS256",
        ACCESS_TOKEN_EXPIRE_MINUTES := accessTokenExpireMinutes,
        DB_TYPE := DbType.sqlite, DB_URL := dbUrl,
        SQLALCHEMY_ECHO := false }

/-! ## Pagination engine (`project/utils/pagination.py`) -/

/-- Modelled from the spec: `PaginationParams` from
`project/utils/pagination.py`, which is absent from the snapshot.
Fields `limit` (1–100), `offset` (≥ 0), `sort_order` (`asc`/`desc`). -/
structure PaginationParams where
  limit : Int
  offset : Int
  sort_order : String
deriving DecidableEq, Repr

/-- Modelled from the spec: pydantic construction of `PaginationParams`
(absent `project/utils/pagination.py`).  Defaults `limit=10`, `offset=0`,
`sort_order="asc"` (documented by the repository's unit tests); constructing
with `limit<1`, `limit>100`, `offset<0`, or a sort order outside
`asc`/`desc` fails with a Validation error identifying the offending
field.  Fields are validated in declaration order. -/
def PaginationParams.build (limitArg offsetArg : Option Int)
    (sortOrderArg : Option String) : Except DomainError PaginationParams :=
  let limit := limitArg.getD 10
  let offset := offsetArg.getD 0
  let sortOrder := sortOrderArg.getD "asc"
  if limit < 1 then
    .error (.validation "limit must be at least 1" (some "limit"))
  else if 100 < limit then
    .error (.validation "limit must be at most 100" (some "limit"))
  else if offset < 0 then
    .error (.validation "offset must be non-negative" (some "offset"))
  else if sortOrder = "asc" ∨ sortOrder = "desc" then
    .ok { limit := limit, offset := offset, sort_order := sortOrder }
  else
    .error (.validation "sort_order must be asc or desc" (some "sort_order"))

/-- Modelled from the spec: `calculate_total_pages` from the absent
`project/utils/pagination.py` — total page count = ceil(total / limit),
0 when total is 0, computed with the integer ceiling-division formula. -/
def calculate_total_pages (total limit : Nat) : Nat :=
  (total + limit - 1) / limit

/-- Modelled from the spec: `has_next_page` from the absent
`project/utils/pagination.py` — a next page exists iff
`offset + limit < total`. -/
def has_next_page (total offset limit : Nat) : Bool :=
  offset + limit < total

/-- Modelled from the spec: `has_previous_page` from the absent
`project/utils/pagination.py` — a previous page exists iff `offset > 0`. -/
def has_previous_page (offset : Nat) : Bool :=
  0 < offset

/-! ## Credential subsystem (`project/security.py`) -/

/-- Modelled from the spec: a bcrypt-style hashed password from the absent
`project/security.py`.  The per-call salt is made an explicit argument of
the hash operation, and the salted digest is modelled by an injective
keyed encoding (the one-way aspect is not needed for the stated claims). -/
structure HashedPassword where
  salt : String
  digest : String
deriving DecidableEq, Repr

/-- Modelled from the spec: `encrypt_password` from the absent
`project/security.py` — a deterministic one-way transformation salted per
call; the fresh salt drawn on each call is the explicit `salt` argument. -/
def encrypt_password (password salt : String) : HashedPassword :=
  { salt := salt, digest := salt ++ ":" ++ password }

/-- Modelled from the spec: `verify_password` from the absent
`project/security.py` — true iff the plaintext matches the hash (recompute
the digest under the stored salt and compare). -/
def verify_password (password : String) (h : HashedPassword) : Bool :=
  h.digest == h.salt ++ ":" ++ password

/-- Modelled from the spec: the `TokenPayload` input of the absent
`project/security.py` — username, role and user identifier of the subject. -/
structure TokenPayload where
  username : String
  role : String
  user_uuid : String
deriving DecidableEq, Repr

/-- Modelled from the spec: the claims placed in the signed JWT payload by
the absent `project/security.py` — exactly `username`, `role`, `user_uuid`
and the expiration instant `exp` (seconds since the epoch). -/
structure JwtClaims where
  username : String
  role : String
  user_uuid : String
  exp : Int
deriving DecidableEq, Repr

/-- Modelled from the spec: a signed, tamper-evident token: the claims
together with a signature keyed by the process-wide secret (`jwt.encode`);
the claims, including `exp`, sit inside the signed structure. -/
structure SignedToken where
  claims : JwtClaims
  signature : String
deriving DecidableEq, Repr

/-- Modelled from the spec: the signature over the claims, keyed by the
secret (stands in for HMAC-SHA-256). -/
def jwt_sign (secret : String) (c : JwtClaims) : String :=
  secret ++ "|" ++ c.username ++ "|" ++ c.role ++ "|" ++ c.user_uuid ++ "|" ++ toString c.exp

/-- Modelled from the spec: the bearer token returned by
`create_access_token` in the absent `project/security.py`. -/
structure Token where
  access_token : SignedToken
  token_type : String
deriving DecidableEq, Repr

/-- Modelled from the spec: `create_access_token` from the absent
`project/security.py` — encodes username, role, user identifier and an
expiration instant equal to issue time plus
`ACCESS_TOKEN_EXPIRE_MINUTES` minutes into a signed structure keyed by
`SECRET_KEY`.  `now` is the issue instant in seconds since the epoch. -/
def create_access_token (payload : TokenPayload) (now : Int) (s : Settings) : Token :=
  let claims : JwtClaims :=
    { username := payload.username, role := payload.role,
      user_uuid := payload.user_uuid,
      exp := now + 60 * s.ACCESS_TOKEN_EXPIRE_MINUTES }
  { access_token := { claims := claims, signature := jwt_sign s.SECRET_KEY claims },
    token_type := "bearer" }

/-! ## Task data model and services
(`project/db/models/task.py`, `project/services/task_service.py`) -/

/-- Modelled from the spec: the `TaskStatus` closed set `todo`,
`in_progress`, `done` from the absent `project/db/models/task.py`. -/
inductive TaskStatus where
  | todo
  | in_progress
  | done
deriving DecidableEq, Repr

/-- Modelled from the spec: the persisted `Task` entity from the absent
`project/db/models/task.py`.  Identifiers are opaque; they are modelled as
naturals, instants as integers. -/
structure Task where
  uuid : Nat
  title : String
  description : Option String
  status : TaskStatus
  priority : Int
  due_date : Option Int
  created_by : Nat
  assigned_to : Option Nat
  created_at : Int
deriving DecidableEq, Repr

/-- Modelled from the spec: the `TaskCreate` input schema from the absent
`project/db/models/task.py` (title, optional description, status
defaulting to `todo`, priority defaulting to 3, optional due date). -/
structure TaskCreate where
  title : String
  description : Option String
  status : TaskStatus
  priority : Int
  due_date : Option Int
deriving DecidableEq, Repr

/-- Modelled from the spec: pydantic construction of `TaskCreate` (absent
`project/db/models/task.py`): title non-empty and at most 200 characters,
priority in [1,5]; `statusArg`/`priorityArg` default to `todo`/3 when not
supplied.  Fields are validated in declaration order. -/
def TaskCreate.build (title : String) (description : Option String)
    (statusArg : Option TaskStatus) (priorityArg : Option Int)
    (dueDate : Option Int) : Except DomainError TaskCreate :=
  let status := statusArg.getD TaskStatus.todo
  let priority := priorityArg.getD 3
  if title.length < 1 then
    .error (.validation "title must not be empty" (some "title"))
  else if 200 < title.length then
    .error (.validation "title must be at most 200 characters" (some "title"))
  else if priority < 1 ∨ 5 < priority then
    .error (.validation "priority must be between 1 and 5" (some "priority"))
  else
    .ok { title := title, description := description, status := status,
          priority := priority, due_date := dueDate }

/-- Modelled from the spec: the `TaskUpdate` partial-update schema from the
absent `project/db/models/task.py`; `none` marks a field left unset. -/
structure TaskUpdate where
  title : Option String
  description : Option String
  status : Option TaskStatus
  priority : Option Int
  due_date : Option Int
  assigned_to : Option Nat
deriving DecidableEq, Repr

/-- The task table: the storage collaborator's authoritative record,
kept in creation order (creation appends). -/
abbrev TaskDb := List Task

/-- Lookup of a row by identifier, as the storage collaborator's
`get(type, id)`. -/
def find_task (db : TaskDb) (id : Nat) : Option Task :=
  db.find? (fun t => t.uuid == id)

/-- Modelled from the spec: `get_task_by_uuid` from the absent
`project/services/task_service.py` — fails NotFound when no task with the
identifier exists. -/
def get_task_by_uuid (db : TaskDb) (id : Nat) : Except DomainError Task :=
  match find_task db id with
  | some t => .ok t
  | none => .error (.notFound "Task" (some (toString id)))

/-- Modelled from the spec: `delete_task` from the absent
`project/services/task_service.py` — checks absence first (NotFound if
absent), then hard-removes the row. -/
def delete_task (db : TaskDb) (id : Nat) : Except DomainError TaskDb :=
  match find_task db id with
  | some _ => .ok (db.filter (fun t => !(t.uuid == id)))
  | none => .error (.notFound "Task" (some (toString id)))

/-- Modelled from the spec: the partial-field merge applied by
`update_task` — a field supplied in the update overwrites, an unset field
keeps the stored value; identifier, creator and creation timestamp are
immutable. -/
def apply_task_update (t : Task) (u : TaskUpdate) : Task :=
  { uuid := t.uuid,
    title := u.title.getD t.title,
    description := match u.description with
      | some d => some d
      | none => t.description,
    status := u.status.getD t.status,
    priority := u.priority.getD t.priority,
    due_date := match u.due_date with
      | some d => some d
      | none => t.due_date,
    created_by := t.created_by,
    assigned_to := match u.assigned_to with
      | some a => some a
      | none => t.assigned_to,
    created_at := t.created_at }

/-- Modelled from the spec: `update_task` from the absent
`project/services/task_service.py` — fails NotFound if the target is
absent, else stores and returns the merged row. -/
def update_task (db : TaskDb) (id : Nat) (u : TaskUpdate) :
    Except DomainError (TaskDb × Task) :=
  match find_task db id with
  | none => .error (.notFound "Task" (some (toString id)))
  | some t =>
    let merged := apply_task_update t u
    .ok (db.map (fun x => if x.uuid == id then merged else x), merged)

/-- Modelled from the spec: `create_task` from the absent
`project/services/task_service.py` — defensively re-validates priority and
title on the (possibly bypassed-validation) input object, then persists a
new row created by `creator`; `newUuid` is the generated identifier and
`now` the creation instant. -/
def create_task (db : TaskDb) (data : TaskCreate) (creator : Nat)
    (newUuid : Nat) (now : Int) : Except DomainError (TaskDb × Task) :=
  if data.priority < 1 ∨ 5 < data.priority then
    .error (.validation "priority must be between 1 and 5" (some "priority"))
  else if data.title.length < 1 then
    .error (.validation "title must not be empty" (some "title"))
  else
    let t : Task :=
      { uuid := newUuid, title := data.title, description := data.description,
        status := data.status, priority := data.priority,
        due_date := data.due_date, created_by := creator,
        assigned_to := none, created_at := now }
    .ok (db ++ [t], t)

/-- Modelled from the spec: the equality filters of the task listing —
a row matches iff it satisfies every supplied filter (conjunction); an
absent filter constrains nothing. -/
def task_matches (statusFilter : Option TaskStatus) (assignedTo : Option Nat)
    (t : Task) : Bool :=
  (match statusFilter with
    | none => true
    | some s => t.status == s) &&
  (match assignedTo with
    | none => true
    | some u => t.assigned_to == some u)

/-- The rows of the table satisfying all supplied filters. -/
def matched_tasks (db : TaskDb) (statusFilter : Option TaskStatus)
    (assignedTo : Option Nat) : List Task :=
  db.filter (task_matches statusFilter assignedTo)

/-- Modelled from the spec: the paginated listing result (`PaginatedData`)
from the absent `project/utils/pagination.py`. -/
structure PaginatedData where
  results : List Task
  total : Nat
  limit : Int
  offset : Int
deriving DecidableEq, Repr

/-- Modelled from the spec: `get_tasks` from the absent
`project/services/task_service.py` — filters by the supplied equality
filters (AND), orders by creation time (the table is kept in creation
order, so `asc` is the stored order and `desc` its reverse), windows by
offset/limit, and reports the full filtered count as `total`. -/
def get_tasks (db : TaskDb) (p : PaginationParams)
    (statusFilter : Option TaskStatus) (assignedTo : Option Nat) : PaginatedData :=
  let rows := matched_tasks db statusFilter assignedTo
  let ordered := if p.sort_order = "desc" then rows.reverse else rows
  { results := (ordered.drop p.offset.toNat).take p.limit.toNat,
    total := rows.length, limit := p.limit, offset := p.offset }

/-! ## User data model and service
(`project/db/models/user.py`, `project/services/user_service.py`) -/

/-- Modelled from the spec: the `Role` closed set `admin`, `user` from the
absent `project/db/models/user.py`. -/
inductive Role where
  | admin
  | user
deriving DecidableEq, Repr

/-- Modelled from the spec: the persisted `User` entity from the absent
`project/db/models/user.py`; the credential is stored only as its hashed
representation. -/
structure User where
  uuid : Nat
  username : String
  email : String
  password_hash : String
  role : Role
  created_at : Int
deriving DecidableEq, Repr

/-- The user table owned by the storage collaborator. -/
abbrev UserDb := List User

/-- Lookup of a user row by identifier. -/
def find_user (db : UserDb) (id : Nat) : Option User :=
  db.find? (fun u => u.uuid == id)

/-- Modelled from the spec: `get_user_by_uuid` from the absent
`project/services/user_service.py` — fails NotFound when no user with the
identifier exists. -/
def get_user_by_uuid (db : UserDb) (id : Nat) : Except DomainError User :=
  match find_user db id with
  | some u => .ok u
  | none => .error (.notFound "User" (some (toString id)))

/-- Modelled from the spec: `delete_user` from the absent
`project/services/user_service.py` — checks absence first (NotFound if
absent), then hard-removes the row. -/
def delete_user (db : UserDb) (id : Nat) : Except DomainError UserDb :=
  match find_user db id with
  | some _ => .ok (db.filter (fun u => !(u.uuid == id)))
  | none => .error (.notFound "User" (some (toString id)))

/-! ## Concrete fixtures used by the witness theorems -/

/-- A todo task assigned to user 1 (fixture). -/
def sampleTaskA : Task :=
  { uuid := 1, title := "Task A", description := some "first",
    status := TaskStatus.todo, priority := 3, due_date := none,
    created_by := 1, assigned_to := some 1, created_at := 10 }

/-- A todo task assigned to user 2 (fixture). -/
def sampleTaskB : Task :=
  { uuid := 2, title := "Task B", description := none,
    status := TaskStatus.todo, priority := 3, due_date := none,
    created_by := 1, assigned_to := some 2, created_at := 11 }

/-- A done, unassigned task (fixture). -/
def sampleTaskD : Task :=
  { uuid := 3, title := "Task D", description := none,
    status := TaskStatus.done, priority := 3, due_date := none,
    created_by := 1, assigned_to := none, created_at := 12 }

/-- A small task table (fixture). -/
def sampleDb : TaskDb := [sampleTaskA, sampleTaskB, sampleTaskD]

/-- Default pagination parameters (fixture). -/
def sampleParams : PaginationParams :=
  { limit := 10, offset := 0, sort_order := "asc" }

/-- A persisted user (fixture). -/
def sampleUser : User :=
  { uuid := 1, username := "testuser", email := "test@example.com",
    password_hash := "h", role := Role.user, created_at := 0 }

/-- An input object with an out-of-range priority, as a test would build it
by bypassing schema validation (fixture). -/
def bypassedTaskCreate : TaskCreate :=
  { title := "Test", description := none, status := TaskStatus.todo,
    priority := 6, due_date := none }

/-- A partial update setting only status and priority (fixture). -/
def statusUpdate : TaskUpdate :=
  { title := none, description := none, status := some TaskStatus.in_progress,
    priority := some 5, due_date := none, assigned_to := none }

/-- `sampleTaskA` after `statusUpdate` (fixture). -/
def updatedTaskA : Task :=
  { sampleTaskA with status := TaskStatus.in_progress, priority := 5 }

/-! ## Helper lemmas -/

/-- The integer ceiling-division formula agrees with the rational ceiling. -/
theorem calculate_total_pages_eq_ceil (total limit : Nat) (hl : 0 < limit) :
    calculate_total_pages total limit = Nat.ceil ((total : ℚ) / (limit : ℚ)) := by
  unfold calculate_total_pages
  have hlq : (0 : ℚ) < (limit : ℚ) := by exact_mod_cast hl
  apply le_antisymm
  · rw [Nat.div_le_iff_le_mul_add_pred hl]
    have h2 : (total : ℚ) / (limit : ℚ) ≤ (Nat.ceil ((total : ℚ) / (limit : ℚ)) : ℚ) :=
      Nat.le_ceil _
    rw [div_le_iff₀ hlq, mul_comm] at h2
    have h3 : total ≤ limit * Nat.ceil ((total : ℚ) / (limit : ℚ)) := by
      exact_mod_cast h2
    omega
  · rw [Nat.ceil_le, div_le_iff₀ hlq]
    have hmod : (total + limit - 1) % limit < limit := Nat.mod_lt _ hl
    have hdm := Nat.div_add_mod (total + limit - 1) limit
    have h4 : total ≤ ((total + limit - 1) / limit) * limit := by
      have hc : limit * ((total + limit - 1) / limit) =
          (total + limit - 1) / limit * limit := Nat.mul_comm _ _
      omega
    exact_mod_cast h4

/-- `isOk` on a success. -/
theorem isOk_ok {ε α : Type} (a : α) : (Except.ok a : Except ε α).isOk = true := rfl

/-- `isOk` on a failure. -/
theorem isOk_error {ε α : Type} (e : ε) :
    (Except.error e : Except ε α).isOk = false := rfl

/-- String concatenation is left-cancellative. -/
theorem string_append_left_cancel {s a b : String} (h : s ++ a = s ++ b) :
    a = b := by
  have hd := congrArg String.data h
  simp [String.data_append] at hd
  exact String.ext hd

/-- After filtering a task's identifier out of the table, lookup misses. -/
theorem find_task_filter_out (db : TaskDb) (id : Nat) :
    find_task (db.filter (fun t => !(t.uuid == id))) id = none := by
  unfold find_task
  apply List.find?_eq_none.mpr
  intro x hx
  have hm := (List.mem_filter.mp hx).2
  simp at hm ⊢
  exact hm

/-- Task lookup reports NotFound exactly when the row is absent. -/
theorem get_task_nf_iff (db : TaskDb) (id : Nat) :
    isNotFoundErr (get_task_by_uuid db id) = true ↔ find_task db id = none := by
  unfold get_task_by_uuid
  cases h : find_task db id with
  | none => simp [isNotFoundErr]
  | some t => simp [isNotFoundErr]

/-- Task deletion reports NotFound exactly when the row is absent. -/
theorem delete_task_nf_iff (db : TaskDb) (id : Nat) :
    isNotFoundErr (delete_task db id) = true ↔ find_task db id = none := by
  unfold delete_task
  cases h : find_task db id with
  | none => simp [isNotFoundErr]
  | some t => simp [isNotFoundErr]

/-- Task lookup misses exactly when no row carries the identifier. -/
theorem find_task_none_iff (db : TaskDb) (id : Nat) :
    find_task db id = none ↔ ∀ t ∈ db, t.uuid ≠ id := by
  unfold find_task
  rw [List.find?_eq_none]
  simp

/-- A successful task deletion leaves the filtered table. -/
theorem delete_task_ok_eq (db db2 : TaskDb) (id : Nat)
    (h : delete_task db id = .ok db2) :
    db2 = db.filter (fun t => !(t.uuid == id)) := by
  unfold delete_task at h
  cases hf : find_task db id with
  | none => rw [hf] at h; exact Except.noConfusion h
  | some t => rw [hf] at h; injection h with h2; exact h2.symm

/-- After filtering a user's identifier out of the table, lookup misses. -/
theorem find_user_filter_out (db : UserDb) (id : Nat) :
    find_user (db.filter (fun u => !(u.uuid == id))) id = none := by
  unfold find_user
  apply List.find?_eq_none.mpr
  intro x hx
  have hm := (List.mem_filter.mp hx).2
  simp at hm ⊢
  exact hm

/-- User lookup reports NotFound exactly when the row is absent. -/
theorem get_user_nf_iff (db : UserDb) (id : Nat) :
    isNotFoundErr (get_user_by_uuid db id) = true ↔ find_user db id = none := by
  unfold get_user_by_uuid
  cases h : find_user db id with
  | none => simp [isNotFoundErr]
  | some u => simp [isNotFoundErr]

/-- User deletion reports NotFound exactly when the row is absent. -/
theorem delete_user_nf_iff (db : UserDb) (id : Nat) :
    isNotFoundErr (delete_user db id) = true ↔ find_user db id = none := by
  unfold delete_user
  cases h : find_user db id with
  | none => simp [isNotFoundErr]
  | some u => simp [isNotFoundErr]

/-- User lookup misses exactly when no row carries the identifier. -/
theorem find_user_none_iff (db : UserDb) (id : Nat) :
    find_user db id = none ↔ ∀ u ∈ db, u.uuid ≠ id := by
  unfold find_user
  rw [List.find?_eq_none]
  simp

/-- A successful user deletion leaves the filtered table. -/
theorem delete_user_ok_eq (db db2 : UserDb) (id : Nat)
    (h : delete_user db id = .ok db2) :
    db2 = db.filter (fun u => !(u.uuid == id)) := by
  unfold delete_user at h
  cases hf : find_user db id with
  | none => rw [hf] at h; exact Except.noConfusion h
  | some u => rw [hf] at h; injection h with h2; exact h2.symm

/-! ## Claim theorems -/

/-- C2 counterexample: constructing `Settings` with an empty signing secret
(and a positive lifetime) succeeds — `config.py` has no validator on
`SECRET_KEY` — contradicting the claim that an empty secret prevents
construction. -/
theorem C2_empty_secret_accepted :
    Settings.make "" 30 "sqlite:///./app.db" =
      Except.ok
        { DEBUG := false, SECRET_KEY := "", ALGORITHM := "HS256",
          ACCESS_TOKEN_EXPIRE_MINUTES := 30, DB_TYPE := DbType.sqlite,
          DB_URL := "sqlite:///./app.db", SQLALCHEMY_ECHO := false } := by
  rfl

/-- C2 (amended): constructing `Settings` succeeds exactly when the token
lifetime is positive and the database URL is non-empty; the signing secret
is not validated, so an empty secret does not prevent construction. -/
theorem C2_settings_validation (secret : String) (minutes : Int) (dbUrl : String) :
    (Settings.make secret minutes dbUrl).isOk = true ↔
      (0 < minutes ∧ dbUrl ≠ "") := by
  unfold Settings.make
  split_ifs with h1 h2
  · rw [isOk_error]
    constructor
    · intro h; cases h
    · rintro ⟨hm, -⟩; omega
  · rw [isOk_error]
    constructor
    · intro h; cases h
    · rintro ⟨-, hd⟩; exact absurd h2 hd
  · rw [isOk_ok]
    constructor
    · intro _; exact ⟨by omega, h2⟩
    · intro _; rfl

/-- C2 witness: at lifetime 30 and the default database URL, construction
succeeds; at lifetime 0 it fails. -/
theorem C2_settings_validation_witness :
    (Settings.make "test" 30 "sqlite:///./app.db").isOk = true
    ∧ ¬ (Settings.make "test" 0 "sqlite:///./app.db").isOk = true := by
  constructor
  · exact (C2_settings_validation "test" 30 "sqlite:///./app.db").mpr
      ⟨by decide, by decide⟩
  · intro h
    have := (C2_settings_validation "test" 0 "sqlite:///./app.db").mp h
    omega

/-- C3: the signed payload of an issued token consists exactly of the
claims username, role, user identifier and expiration, the expiration is
issue time plus the configured lifetime in minutes, and the signature
covers the claims (so the expiration sits inside the signed payload). -/
theorem C3_token_payload (payload : TokenPayload) (now : Int) (s : Settings) :
    (create_access_token payload now s).access_token.claims =
      { username := payload.username, role := payload.role,
        user_uuid := payload.user_uuid,
        exp := now + 60 * s.ACCESS_TOKEN_EXPIRE_MINUTES }
    ∧ (create_access_token payload now s).access_token.signature =
        jwt_sign s.SECRET_KEY (create_access_token payload now s).access_token.claims
    ∧ (create_access_token payload now s).token_type = "bearer" :=
  ⟨rfl, rfl, rfl⟩

/-- C4: hashing the same password under two distinct per-call salts yields
two distinct hashes, both of which verify against the original password,
while any other password fails verification. -/
theorem C4_password_hashing (p q salt1 salt2 : String)
    (hsalt : salt1 ≠ salt2) (hq : q ≠ p) :
    encrypt_password p salt1 ≠ encrypt_password p salt2
    ∧ verify_password p (encrypt_password p salt1) = true
    ∧ verify_password p (encrypt_password p salt2) = true
    ∧ verify_password q (encrypt_password p salt1) = false := by
  refine ⟨?_, ?_, ?_, ?_⟩
  · intro h
    exact hsalt (congrArg HashedPassword.salt h)
  · simp [verify_password, encrypt_password]
  · simp [verify_password, encrypt_password]
  · simp only [verify_password, encrypt_password]
    apply (Bool.not_eq_true _).mp
    intro h
    have heq : salt1 ++ ":" ++ p = salt1 ++ ":" ++ q := by
      exact_mod_cast (beq_iff_eq.mp h)
    have : p = q := string_append_left_cancel heq
    exact hq this.symm

/-- C4 witness: concrete password, wrong password, and two salts. -/
theorem C4_password_hashing_witness :
    encrypt_password "mypassword" "s1" ≠ encrypt_password "mypassword" "s2"
    ∧ verify_password "mypassword" (encrypt_password "mypassword" "s1") = true
    ∧ verify_password "mypassword" (encrypt_password "mypassword" "s2") = true
    ∧ verify_password "wrong" (encrypt_password "mypassword" "s1") = false :=
  C4_password_hashing "mypassword" "wrong" "s1" "s2" (by decide) (by decide)

/-- C5: for every limit in [1,100] and every offset and total, the total
page count is the ceiling of total over limit (0 when total is 0), a next
page exists iff `offset + limit < total`, and a previous page exists iff
`offset > 0`. -/
theorem C5_pagination_page_math (total offset limit : Nat)
    (h1 : 1 ≤ limit) (h2 : limit ≤ 100) :
    calculate_total_pages total limit = Nat.ceil ((total : ℚ) / (limit : ℚ))
    ∧ (total = 0 → calculate_total_pages total limit = 0)
    ∧ (has_next_page total offset limit = true ↔ offset + limit < total)
    ∧ (has_previous_page offset = true ↔ 0 < offset) := by
  refine ⟨calculate_total_pages_eq_ceil total limit (by omega), ?_, ?_, ?_⟩
  · intro h
    subst h
    unfold calculate_total_pages
    exact Nat.div_eq_of_lt (by omega)
  · simp [has_next_page]
  · simp [has_previous_page]

/-- C5 witness: 25 rows with limit 10 and offset 10 give 3 pages, a next
page and a previous page. -/
theorem C5_pagination_page_math_witness :
    calculate_total_pages 25 10 = Nat.ceil ((25 : ℚ) / (10 : ℚ))
    ∧ ((25 : Nat) = 0 → calculate_total_pages 25 10 = 0)
    ∧ (has_next_page 25 10 10 = true ↔ 10 + 10 < 25)
    ∧ (has_previous_page 10 = true ↔ 0 < 10) :=
  C5_pagination_page_math 25 10 10 (by decide) (by decide)

/-- C6: pagination construction with limit 0 or limit above 100 fails with
a Validation error on field `limit`, a negative offset (with a valid
limit) fails on field `offset`, and the boundary limits 1 and 100 with a
non-negative offset succeed, preserving the given values. -/
theorem C6_pagination_params_validation (limit offset : Int) (sort : String) :
    errField (PaginationParams.build (some 0) (some offset) (some sort)) = some "limit"
    ∧ (100 < limit →
        errField (PaginationParams.build (some limit) (some offset) (some sort)) =
          some "limit")
    ∧ (offset < 0 → 1 ≤ limit → limit ≤ 100 →
        errField (PaginationParams.build (some limit) (some offset) (some sort)) =
          some "offset")
    ∧ (0 ≤ offset → (sort = "asc" ∨ sort = "desc") →
        PaginationParams.build (some 1) (some offset) (some sort) =
          .ok { limit := 1, offset := offset, sort_order := sort }
        ∧ PaginationParams.build (some 100) (some offset) (some sort) =
          .ok { limit := 100, offset := offset, sort_order := sort }) := by
  refine ⟨?_, ?_, ?_, ?_⟩
  · simp [PaginationParams.build, errField]
  · intro hl
    simp only [PaginationParams.build, Option.getD_some]
    rw [if_neg (by omega), if_pos hl]
    rfl
  · intro ho hl1 hl2
    simp only [PaginationParams.build, Option.getD_some]
    rw [if_neg (by omega), if_neg (by omega), if_pos ho]
    rfl
  · intro ho hs
    constructor
    · simp only [PaginationParams.build, Option.getD_some]
      rw [if_neg (by omega), if_neg (by omega), if_neg (by omega), if_pos hs]
    · simp only [PaginationParams.build, Option.getD_some]
      rw [if_neg (by omega), if_neg (by omega), if_neg (by omega), if_pos hs]

/-- C6 witness: limit 0 and 101 fail on `limit`, offset −1 fails on
`offset`, and limits 1 and 100 with offset 5 succeed. -/
theorem C6_pagination_params_validation_witness :
    errField (PaginationParams.build (some 0) (some 5) (some "asc")) = some "limit"
    ∧ errField (PaginationParams.build (some 101) (some 5) (some "asc")) = some "limit"
    ∧ errField (PaginationParams.build (some 10) (some (-1)) (some "asc")) = some "offset"
    ∧ PaginationParams.build (some 1) (some 5) (some "asc") =
        .ok { limit := 1, offset := 5, sort_order := "asc" }
    ∧ PaginationParams.build (some 100) (some 5) (some "asc") =
        .ok { limit := 100, offset := 5, sort_order := "asc" } := by
  refine ⟨(C6_pagination_params_validation 0 5 "asc").1, ?_, ?_, ?_, ?_⟩
  · exact (C6_pagination_params_validation 101 5 "asc").2.1 (by decide)
  · exact (C6_pagination_params_validation 10 (-1) "asc").2.2.1
      (by decide) (by decide) (by decide)
  · exact ((C6_pagination_params_validation 1 5 "asc").2.2.2
      (by decide) (Or.inl rfl)).1
  · exact ((C6_pagination_params_validation 100 5 "asc").2.2.2
      (by decide) (Or.inl rfl)).2

/-- C10: constructing pagination parameters with no arguments yields
limit 10, offset 0 and sort order `asc`; a supplied value overrides its
own default while the others keep theirs, and supplying all values
overrides all defaults. -/
theorem C10_pagination_defaults :
    PaginationParams.build none none none =
      .ok { limit := 10, offset := 0, sort_order := "asc" }
    ∧ (∀ l : Int, 1 ≤ l → l ≤ 100 →
        PaginationParams.build (some l) none none =
          .ok { limit := l, offset := 0, sort_order := "asc" })
    ∧ (∀ o : Int, 0 ≤ o →
        PaginationParams.build none (some o) none =
          .ok { limit := 10, offset := o, sort_order := "asc" })
    ∧ PaginationParams.build none none (some "desc") =
        .ok { limit := 10, offset := 0, sort_order := "desc" }
    ∧ (∀ (l o : Int), 1 ≤ l → l ≤ 100 → 0 ≤ o →
        PaginationParams.build (some l) (some o) (some "desc") =
          .ok { limit := l, offset := o, sort_order := "desc" }) := by
  refine ⟨by rfl, ?_, ?_, by rfl, ?_⟩
  · intro l hl1 hl2
    simp only [PaginationParams.build, Option.getD_some, Option.getD_none]
    rw [if_neg (by omega), if_neg (by omega), if_neg (by omega)]
    simp
  · intro o ho
    simp only [PaginationParams.build, Option.getD_some, Option.getD_none]
    rw [if_neg (by omega), if_neg (by omega), if_neg (by omega)]
    simp
  · intro l o hl1 hl2 ho
    simp only [PaginationParams.build, Option.getD_some]
    rw [if_neg (by omega), if_neg (by omega), if_neg (by omega)]
    simp

/-- C10 witness: the defaults, and the custom values 25/50/desc of the
repository's unit test. -/
theorem C10_pagination_defaults_witness :
    PaginationParams.build none none none =
      .ok { limit := 10, offset := 0, sort_order := "asc" }
    ∧ PaginationParams.build (some 25) none none =
        .ok { limit := 25, offset := 0, sort_order := "asc" }
    ∧ PaginationParams.build none (some 50) none =
        .ok { limit := 10, offset := 50, sort_order := "asc" }
    ∧ PaginationParams.build (some 25) (some 50) (some "desc") =
        .ok { limit := 25, offset := 50, sort_order := "desc" } := by
  refine ⟨C10_pagination_defaults.1, ?_, ?_, ?_⟩
  · exact C10_pagination_defaults.2.1 25 (by decide) (by decide)
  · exact C10_pagination_defaults.2.2.1 50 (by decide)
  · exact C10_pagination_defaults.2.2.2.2 25 50 (by decide) (by decide) (by decide)

/-- C7: task creation with priority 0 or 6 fails with a Validation error
and priorities 1 and 5 succeed, both at the input-schema level and
defensively inside the service, which still rejects an input object that
bypassed schema validation. -/
theorem C7_priority_validation (title : String) (d : Option String)
    (sArg : Option TaskStatus) (dd : Option Int)
    (db : TaskDb) (data : TaskCreate) (creator newUuid : Nat) (now : Int) :
    isValidationErr (TaskCreate.build title d sArg (some 0) dd) = true
    ∧ isValidationErr (TaskCreate.build title d sArg (some 6) dd) = true
    ∧ (1 ≤ title.length → title.length ≤ 200 →
        TaskCreate.build title d sArg (some 1) dd =
          .ok { title := title, description := d,
                status := sArg.getD TaskStatus.todo, priority := 1,
                due_date := dd }
        ∧ TaskCreate.build title d sArg (some 5) dd =
          .ok { title := title, description := d,
                status := sArg.getD TaskStatus.todo, priority := 5,
                due_date := dd })
    ∧ ((data.priority = 0 ∨ data.priority = 6) →
        isValidationErr (create_task db data creator newUuid now) = true)
    ∧ (1 ≤ data.title.length → (data.priority = 1 ∨ data.priority = 5) →
        (create_task db data creator newUuid now).isOk = true) := by
  refine ⟨?_, ?_, ?_, ?_, ?_⟩
  · simp only [TaskCreate.build, Option.getD_some]
    split_ifs with h1 h2 h3
    · rfl
    · rfl
    · rfl
    · exfalso; omega
  · simp only [TaskCreate.build, Option.getD_some]
    split_ifs with h1 h2 h3
    · rfl
    · rfl
    · rfl
    · exfalso; omega
  · intro hl1 hl2
    constructor
    · simp only [TaskCreate.build, Option.getD_some]
      rw [if_neg (by omega), if_neg (by omega), if_neg (by omega)]
    · simp only [TaskCreate.build, Option.getD_some]
      rw [if_neg (by omega), if_neg (by omega), if_neg (by omega)]
  · intro hp
    simp only [create_task]
    rw [if_pos (by omega)]
    rfl
  · intro hl hp
    simp only [create_task]
    rw [if_neg (by omega), if_neg (by omega)]
    exact isOk_ok _

/-- C7 witness: priorities 0 and 6 fail and 1 and 5 succeed for the title
`Test`; the service rejects the bypassed input object of priority 6. -/
theorem C7_priority_validation_witness :
    isValidationErr (TaskCreate.build "Test" none none (some 0) none) = true
    ∧ isValidationErr (TaskCreate.build "Test" none none (some 6) none) = true
    ∧ TaskCreate.build "Test" none none (some 1) none =
        .ok { title := "Test", description := none, status := TaskStatus.todo,
              priority := 1, due_date := none }
    ∧ TaskCreate.build "Test" none none (some 5) none =
        .ok { title := "Test", description := none, status := TaskStatus.todo,
              priority := 5, due_date := none }
    ∧ isValidationErr (create_task [] bypassedTaskCreate 1 2 0) = true := by
  obtain ⟨a, b, c, d, -⟩ :=
    C7_priority_validation "Test" none none none [] bypassedTaskCreate 1 2 0
  have hc := c (by decide) (by decide)
  exact ⟨a, b, hc.1, hc.2, d (Or.inr rfl)⟩

/-- C8: after a successful delete, lookup and a second delete of the same
identifier fail with NotFound; in general, lookup and delete fail with
NotFound exactly when no entity with the identifier exists — for tasks and
for users. -/
theorem C8_not_found_semantics (db : TaskDb) (udb : UserDb) (id : Nat) :
    (∀ db2, delete_task db id = .ok db2 →
      isNotFoundErr (get_task_by_uuid db2 id) = true
      ∧ isNotFoundErr (delete_task db2 id) = true)
    ∧ (isNotFoundErr (get_task_by_uuid db id) = true ↔ ∀ t ∈ db, t.uuid ≠ id)
    ∧ (isNotFoundErr (delete_task db id) = true ↔ ∀ t ∈ db, t.uuid ≠ id)
    ∧ (∀ udb2, delete_user udb id = .ok udb2 →
      isNotFoundErr (get_user_by_uuid udb2 id) = true
      ∧ isNotFoundErr (delete_user udb2 id) = true)
    ∧ (isNotFoundErr (get_user_by_uuid udb id) = true ↔ ∀ u ∈ udb, u.uuid ≠ id)
    ∧ (isNotFoundErr (delete_user udb id) = true ↔ ∀ u ∈ udb, u.uuid ≠ id) := by
  refine ⟨?_, ?_, ?_, ?_, ?_, ?_⟩
  · intro db2 hdel
    have h2 := delete_task_ok_eq db db2 id hdel
    subst h2
    constructor
    · exact (get_task_nf_iff _ id).mpr (find_task_filter_out db id)
    · exact (delete_task_nf_iff _ id).mpr (find_task_filter_out db id)
  · rw [get_task_nf_iff, find_task_none_iff]
  · rw [delete_task_nf_iff, find_task_none_iff]
  · intro udb2 hdel
    have h2 := delete_user_ok_eq udb udb2 id hdel
    subst h2
    constructor
    · exact (get_user_nf_iff _ id).mpr (find_user_filter_out udb id)
    · exact (delete_user_nf_iff _ id).mpr (find_user_filter_out udb id)
  · rw [get_user_nf_iff, find_user_none_iff]
  · rw [delete_user_nf_iff, find_user_none_iff]

/-- C8 witness: deleting task 1 from the sample table succeeds, after which
lookup and a second delete of identifier 1 fail with NotFound; lookup in an
empty user table fails with NotFound. -/
theorem C8_not_found_semantics_witness :
    isNotFoundErr (get_task_by_uuid [sampleTaskB, sampleTaskD] 1) = true
    ∧ isNotFoundErr (delete_task [sampleTaskB, sampleTaskD] 1) = true
    ∧ isNotFoundErr (get_user_by_uuid [] 5) = true := by
  obtain ⟨hdel, -, -, -, hu, -⟩ := C8_not_found_semantics sampleDb [] 1
  have h := hdel [sampleTaskB, sampleTaskD] (by rfl)
  obtain ⟨-, -, -, -, hu5, -⟩ := C8_not_found_semantics sampleDb [] 5
  exact ⟨h.1, h.2, hu5.mpr (by intro u hu; cases hu)⟩

/-- C9: a partial update whose only set fields are status and priority
leaves every other field of the task unchanged — in particular title and
description keep their previous values. -/
theorem C9_partial_update_frame (db : TaskDb) (id : Nat) (u : TaskUpdate)
    (t : Task) (db2 : TaskDb) (t2 : Task)
    (htitle : u.title = none) (hdesc : u.description = none)
    (hdue : u.due_date = none) (hass : u.assigned_to = none)
    (hget : get_task_by_uuid db id = .ok t)
    (hupd : update_task db id u = .ok (db2, t2)) :
    t2.title = t.title ∧ t2.description = t.description
    ∧ t2.due_date = t.due_date ∧ t2.assigned_to = t.assigned_to
    ∧ t2.uuid = t.uuid ∧ t2.created_by = t.created_by
    ∧ t2.created_at = t.created_at := by
  unfold get_task_by_uuid at hget
  unfold update_task at hupd
  cases hf : find_task db id with
  | none =>
    rw [hf] at hget
    exact Except.noConfusion hget
  | some t0 =>
    rw [hf] at hget hupd
    injection hget with h1
    injection hupd with h2
    have hsnd : apply_task_update t0 u = t2 := congrArg Prod.snd h2
    subst h1
    subst hsnd
    unfold apply_task_update
    rw [htitle, hdesc, hdue, hass]
    exact ⟨rfl, rfl, rfl, rfl, rfl, rfl, rfl⟩

/-- C9 witness: updating the sample task with only status and priority set
keeps its title, description and the other fields. -/
theorem C9_partial_update_frame_witness :
    updatedTaskA.title = sampleTaskA.title
    ∧ updatedTaskA.description = sampleTaskA.description
    ∧ updatedTaskA.due_date = sampleTaskA.due_date
    ∧ updatedTaskA.assigned_to = sampleTaskA.assigned_to
    ∧ updatedTaskA.uuid = sampleTaskA.uuid
    ∧ updatedTaskA.created_by = sampleTaskA.created_by
    ∧ updatedTaskA.created_at = sampleTaskA.created_at :=
  C9_partial_update_frame [sampleTaskA] 1 statusUpdate sampleTaskA
    [updatedTaskA] updatedTaskA rfl rfl rfl rfl (by rfl) (by rfl)

/-- C1: a task listing with both a status filter and an assignee filter
returns exactly the rows satisfying both (logical AND): the matched set is
the status-filtered set further filtered by assignee, membership in it is
membership in both single-filter sets, the reported total is its size, and
every returned row satisfies both filters. -/
theorem C1_filter_conjunction (db : TaskDb) (s : TaskStatus) (uid : Nat)
    (p : PaginationParams) :
    matched_tasks db (some s) (some uid) =
      (matched_tasks db (some s) none).filter (task_matches none (some uid))
    ∧ (∀ t, t ∈ matched_tasks db (some s) (some uid) ↔
        (t ∈ matched_tasks db (some s) none ∧
         t ∈ matched_tasks db none (some uid)))
    ∧ (get_tasks db p (some s) (some uid)).total =
        (matched_tasks db (some s) (some uid)).length
    ∧ (∀ t, t ∈ (get_tasks db p (some s) (some uid)).results →
        (t.status == s) = true ∧ (t.assigned_to == some uid) = true) := by
  refine ⟨?_, ?_, rfl, ?_⟩
  · unfold matched_tasks
    rw [List.filter_filter]
    apply List.filter_congr
    intro t _
    simp [task_matches, Bool.and_comm]
  · intro t
    simp only [matched_tasks, List.mem_filter, task_matches]
    simp only [Bool.and_eq_true]
    tauto
  · intro t ht
    simp only [get_tasks] at ht
    have h1 := List.drop_subset _ _ (List.take_subset _ _ ht)
    have h2 : t ∈ matched_tasks db (some s) (some uid) := by
      by_cases hd : p.sort_order = "desc"
      · rw [if_pos hd] at h1
        exact List.mem_reverse.mp h1
      · rw [if_neg hd] at h1
        exact h1
    unfold matched_tasks at h2
    have h3 : task_matches (some s) (some uid) t = true :=
      (List.mem_filter.mp h2).2
    simp only [task_matches, Bool.and_eq_true] at h3
    exact h3

/-- C1 witness: on the sample table, filtering by todo AND assignee 1 is
the intersection of the single-filter result sets, and the reported total
is its size. -/
theorem C1_filter_conjunction_witness :
    matched_tasks sampleDb (some TaskStatus.todo) (some 1) =
      (matched_tasks sampleDb (some TaskStatus.todo) none).filter
        (task_matches none (some 1))
    ∧ (sampleTaskA ∈ matched_tasks sampleDb (some TaskStatus.todo) (some 1) ↔
        (sampleTaskA ∈ matched_tasks sampleDb (some TaskStatus.todo) none ∧
         sampleTaskA ∈ matched_tasks sampleDb none (some 1)))
    ∧ (get_tasks sampleDb sampleParams (some TaskStatus.todo) (some 1)).total =
        (matched_tasks sampleDb (some TaskStatus.todo) (some 1)).length := by
  obtain ⟨h1, h2, h3, -⟩ :=
    C1_filter_conjunction sampleDb TaskStatus.todo 1 sampleParams
  exact ⟨h1, h2 sampleTaskA, h3⟩

end Project
